import Mathlib

/-!
Verification of the WaterCrawl Go SDK's event-stream monitoring and scrape
orchestration core (`api.go`), as a shallow embedding.

JSON values are modelled by the inductive `JValue`; Go `interface{}` values
produced by `encoding/json` are `JValue`s, with a JSON `null` unmarshalling to
a nil interface.  Network calls (`DownloadCrawlRequest` as invoked from the
monitor goroutine and the scrape fold) are oracles `Nat → Option _`, indexed
by how many fetches were attempted so far; `none` is a fetch error.  The
`json.Unmarshal` of one SSE `data:` line into an `EventStreamMessage` is an
oracle `String → Option EventStreamMessage`; `none` is a parse failure.
-/

/-- A structured JSON value, the model of a decoded Go `interface{}`. -/
inductive JValue where
  | null
  | bool (b : Bool)
  | num (q : Rat)
  | str (s : String)
  | arr (elems : List JValue)
  | obj (fields : List (String × JValue))

/-- Go type assertion `v.(map[string]interface{})`: succeeds exactly on a JSON
object (a JSON `null` is a nil interface, so the assertion fails). -/
def JValue.asObj : JValue → Option (List (String × JValue))
  | .obj m => some m
  | _ => none

/-- Storing a decoded JSON value in a Go `interface{}` variable and later
testing `!= nil`: a JSON `null` is the nil interface. -/
def JValue.toOptional : JValue → Option JValue
  | .null => none
  | v => some v

/-- `EventStreamMessage` from the SDK: `Type string` / `Data interface{}`
with JSON tags `type` / `data`. -/
structure EventStreamMessage where
  type : String
  data : JValue

/-- The `30 * time.Second` budget used for every `context.WithTimeout` around
a `DownloadCrawlRequest` call in `MonitorCrawlRequest` and `ScrapeURL`. -/
def downloadTimeoutSeconds : Nat := 30

/-- Drop leading whitespace characters from a character list (one side of Go's
`strings.TrimSpace`). -/
def dropLeadingSpace : List Char → List Char
  | [] => []
  | c :: cs => if c.isWhitespace then dropLeadingSpace cs else c :: cs

/-- Go's `strings.TrimSpace`: remove whitespace from both ends of a string. -/
def trimSpace (s : String) : String :=
  ⟨(dropLeadingSpace (dropLeadingSpace s.data).reverse).reverse⟩

/-- One iteration of the SSE read loop in `MonitorCrawlRequest` applied to one
raw line: trim whitespace, skip empty lines, skip lines without the `data:`
marker (Go `strings.HasPrefix`), otherwise strip the 5-character marker
(`strings.TrimPrefix`), trim again and unmarshal (`parse`); a failed unmarshal
yields no event. -/
def processSSELine (parse : String → Option EventStreamMessage) (raw : String) :
    Option EventStreamMessage :=
  let line := trimSpace raw
  if line = "" then none
  else if List.isPrefixOf "data:".data line.data then
    parse (trimSpace ⟨line.data.drop 5⟩)
  else none

/-- The event frame decoder: the sequence of events produced by running the
`MonitorCrawlRequest` read loop over a list of input lines until EOF. -/
def decodeLines (parse : String → Option EventStreamMessage)
    (lines : List String) : List EventStreamMessage :=
  lines.filterMap (processSSELine parse)

/-- The augmentation step of `MonitorCrawlRequest`'s goroutine, run over the
already-decoded events: when `download` is set and the event is a `"result"`
whose `Data` is a JSON object, one `DownloadCrawlRequest` (the `fetch` oracle,
at the current fetch count) is attempted; on success the event's `Data` is
replaced wholesale by the downloaded object, on failure the event is passed on
untouched.  Returns the emitted events and the final fetch count. -/
def monitorLoop (download : Bool)
    (fetch : Nat → Option (List (String × JValue))) :
    List EventStreamMessage → Nat → List EventStreamMessage × Nat
  | [], n => ([], n)
  | e :: rest, n =>
    if download ∧ e.type = "result" then
      match e.data.asObj with
      | some _ =>
        match fetch n with
        | some dd =>
          let r := monitorLoop download fetch rest (n + 1)
          ({ e with data := .obj dd } :: r.1, r.2)
        | none =>
          let r := monitorLoop download fetch rest (n + 1)
          (e :: r.1, r.2)
      | none =>
        let r := monitorLoop download fetch rest n
        (e :: r.1, r.2)
    else
      let r := monitorLoop download fetch rest n
      (e :: r.1, r.2)

/-- The running fold state of `ScrapeURL`'s event loop: `eventCount`,
`lastProgress`, `lastError`, `lastStateData` (Go locals of the same names). -/
structure ScrapeState where
  eventCount : Nat
  lastProgress : Rat
  lastError : Option JValue
  lastStateData : Option (List (String × JValue))

/-- The state of `ScrapeURL`'s locals before the first event is received. -/
def initialScrapeState : ScrapeState := ⟨0, 0, none, none⟩

/-- `eventCount++` at the top of `ScrapeURL`'s event loop. -/
def countEvent (st : ScrapeState) : ScrapeState :=
  { st with eventCount := st.eventCount + 1 }

/-- The terminal errors `ScrapeURL` can return, carrying exactly the data
interpolated into the corresponding `fmt.Errorf` message. -/
inductive ScrapeError where
  | crawlFailed (status : String)
  | noEventsReceived
  | lastErrorWas (payload : JValue)
  | noValidResult (eventCount : Nat) (lastProgress : Rat)

/-- Outcome of processing one event inside `ScrapeURL`'s loop: either a
`return` out of the function (with the fetch count so far) or the next loop
iteration's state. -/
inductive ScrapeStep where
  | done : Except ScrapeError (List (String × JValue)) → Nat → ScrapeStep
  | next : ScrapeState → Nat → ScrapeStep

/-- The `switch event.Type` body of `ScrapeURL`'s event loop, for one event
(whose receipt has already been counted into `st`), with `n` fetches already
attempted. -/
def scrapeStep (download : Bool)
    (fetch : Nat → Option (List (String × JValue)))
    (e : EventStreamMessage) (st : ScrapeState) (n : Nat) : ScrapeStep :=
  if e.type = "result" then
    match e.data.asObj with
    | some m => .done (.ok m) n
    | none => .next st n
  else if e.type = "error" then
    .next { st with lastError := e.data.toOptional } n
  else if e.type = "progress" then
    match e.data.asObj with
    | some m =>
      match List.lookup "progress" m with
      | some (.num p) => .next { st with lastProgress := p } n
      | _ => .next st n
    | none => .next st n
  else if e.type = "state" then
    match e.data.asObj with
    | some m =>
      let st := { st with lastStateData := some m }
      match List.lookup "status" m with
      | some (.str s) =>
        if s = "completed" then
          if download then
            match fetch n with
            | some dd => .done (.ok dd) (n + 1)
            | none => .done (.ok m) (n + 1)
          else .done (.ok m) n
        else if s = "failed" then .done (.error (.crawlFailed s)) n
        else .next st n
      | _ => .next st n
    | none => .next st n
  else if e.type = "completed" then
    if download then
      match fetch n with
      | some dd =>
        if 0 < dd.length then .done (.ok dd) (n + 1) else .next st (n + 1)
      | none => .next st (n + 1)
    else .next st n
  else .next st n

/-- The code after `ScrapeURL`'s event loop, run when the channel is closed:
return the last state data if any, else the `eventCount == 0` error, else the
last error, else the generic "no valid result" error. -/
def finalizeScrape (st : ScrapeState) :
    Except ScrapeError (List (String × JValue)) :=
  match st.lastStateData with
  | some m => .ok m
  | none =>
    if st.eventCount = 0 then .error .noEventsReceived
    else
      match st.lastError with
      | some payload => .error (.lastErrorWas payload)
      | none => .error (.noValidResult st.eventCount st.lastProgress)

/-- `ScrapeURL`'s `for event := range events` fold over the (finite) sequence
of monitored events, returning the function's result together with the number
of `DownloadCrawlRequest` calls it issued. -/
def scrapeLoop (download : Bool)
    (fetch : Nat → Option (List (String × JValue))) :
    List EventStreamMessage → ScrapeState → Nat →
      Except ScrapeError (List (String × JValue)) × Nat
  | [], st, n => (finalizeScrape st, n)
  | e :: rest, st, n =>
    match scrapeStep download fetch e (countEvent st) n with
    | .done r n' => (r, n')
    | .next st' n' => scrapeLoop download fetch rest st' n'

/-- `ValidationError` from `errors.go` (field + message). -/
structure ValidationError where
  Field : String
  Message : String
deriving DecidableEq

/-- The dynamic type of `CreateCrawlRequestInput.URL` (`interface{}`): nil, a
string, a `[]string`, or any other type. -/
inductive URLInput where
  | null
  | str (s : String)
  | strList (l : List String)
  | other

/-- The `for i, u := range v` loop of `CreateCrawlRequest` over a URL list,
starting at index `k`: the first empty element fails with field `url[i]`. -/
def validateURLList : List String → Nat → Option ValidationError
  | [], _ => none
  | u :: rest, k =>
    if u = "" then some ⟨"url[" ++ toString k ++ "]", "URL cannot be empty"⟩
    else validateURLList rest (k + 1)

/-- The input validation at the head of `CreateCrawlRequest`: `none` means
validation passed. -/
def createCrawlRequestValidate : URLInput → Option ValidationError
  | .null => some ⟨"url", "URL is required"⟩
  | .str s =>
    if s = "" then some ⟨"url", "URL cannot be empty"⟩ else none
  | .strList l =>
    if l.length = 0 then some ⟨"url", "URL list cannot be empty"⟩
    else validateURLList l 0
  | .other => some ⟨"url", "URL must be a string or array of strings"⟩

/-- `CreateCrawlRequest` up to its first network interaction: a validation
error is returned before `doRequest` runs; `.ok ()` means validation passed
and the POST create request is issued. -/
def CreateCrawlRequest (u : URLInput) : Except ValidationError Unit :=
  match createCrawlRequestValidate u with
  | some e => .error e
  | none => .ok ()

/-- Go `json.Unmarshal(body, &m)` for `m : map[string]interface{}`: succeeds
on a JSON object; per the `encoding/json` contract, "unmarshaling a JSON null
into any other Go type has no effect on the value and produces no error", so
a top-level `null` also succeeds, leaving the map nil. -/
def unmarshalAsObject : JValue → Option (List (String × JValue))
  | .obj m => some m
  | .null => some []
  | _ => none

/-- Go `json.Unmarshal(body, &a)` for `a : []interface{}`: succeeds on a JSON
array (and, as above, on a top-level `null`, leaving the slice nil). -/
def unmarshalAsArray : JValue → Option (List JValue)
  | .arr a => some a
  | .null => some []
  | _ => none

/-- Body handling of `DownloadCrawlRequest`: the body is `none` when it is not
well-formed JSON, otherwise `some` of its top-level value.  First unmarshal as
an object and return it as-is; if that fails, unmarshal as an array and wrap
it under the `"results"` key; if that also fails, return an error (`none`). -/
def DownloadCrawlRequest (body : Option JValue) :
    Option (List (String × JValue)) :=
  match body with
  | none => none
  | some v =>
    match unmarshalAsObject v with
    | some m => some m
    | none =>
      match unmarshalAsArray v with
      | some a => some [("results", JValue.arr a)]
      | none => none

/-- The event sequence `state(running)`, `progress(50)`, `result({content:"x"})`
from the spec's sample synchronous run. -/
def syncScrapeSampleEvents : List EventStreamMessage :=
  [⟨"state", .obj [("status", JValue.str "running")]⟩,
   ⟨"progress", .obj [("progress", JValue.num 50)]⟩,
   ⟨"result", .obj [("content", JValue.str "x")]⟩]

/-- A sample unmarshal oracle for witnesses: only the document `"ev"` decodes
(to a `"result"` event); everything else is a parse failure. -/
def sampleParse : String → Option EventStreamMessage :=
  fun s => if s = "ev" then some ⟨"result", JValue.null⟩ else none

/-- C1: when the monitored stream ends without a terminal decision, the fold's
outcome follows this priority: a captured last `"state"` payload is returned
(Degraded) first; otherwise zero events means the "no events received" error;
otherwise a recorded last error payload is cited; otherwise the generic
"no valid result" error carries the event count and last known progress. -/
theorem scrape_eof_fallback_priority (download : Bool)
    (fetch : Nat → Option (List (String × JValue))) (n : Nat)
    (st : ScrapeState) :
    (∀ m, st.lastStateData = some m →
      scrapeLoop download fetch [] st n = (.ok m, n)) ∧
    (st.lastStateData = none → st.eventCount = 0 →
      scrapeLoop download fetch [] st n = (.error .noEventsReceived, n)) ∧
    (∀ p, st.lastStateData = none → st.eventCount ≠ 0 → st.lastError = some p →
      scrapeLoop download fetch [] st n = (.error (.lastErrorWas p), n)) ∧
    (st.lastStateData = none → st.eventCount ≠ 0 → st.lastError = none →
      scrapeLoop download fetch [] st n =
        (.error (.noValidResult st.eventCount st.lastProgress), n)) := by
  refine ⟨?_, ?_, ?_, ?_⟩ <;> intros <;> simp_all [scrapeLoop, finalizeScrape]

/-- Witness for C1: the four fallback branches evaluated at concrete states,
including the zero-event stream of the initial state. -/
theorem scrape_eof_fallback_priority_witness :
    (⟨2, 0, none, some [("status", JValue.str "running")]⟩ : ScrapeState).lastStateData
        = some [("status", JValue.str "running")] ∧
    scrapeLoop false (fun _ => none) []
        ⟨2, 0, none, some [("status", JValue.str "running")]⟩ 0
      = (.ok [("status", JValue.str "running")], 0) ∧
    scrapeLoop false (fun _ => none) [] initialScrapeState 0
      = (.error .noEventsReceived, 0) ∧
    scrapeLoop false (fun _ => none) [] ⟨3, 40, some (JValue.str "boom"), none⟩ 0
      = (.error (.lastErrorWas (JValue.str "boom")), 0) ∧
    scrapeLoop false (fun _ => none) [] ⟨3, 40, none, none⟩ 0
      = (.error (.noValidResult 3 40), 0) :=
  ⟨rfl,
   (scrape_eof_fallback_priority false (fun _ => none) 0 _).1 _ rfl,
   (scrape_eof_fallback_priority false (fun _ => none) 0 initialScrapeState).2.1
     rfl rfl,
   (scrape_eof_fallback_priority false (fun _ => none) 0 _).2.2.1 _ rfl
     (by decide) rfl,
   (scrape_eof_fallback_priority false (fun _ => none) 0 _).2.2.2 rfl
     (by decide) rfl⟩

/-- C2: a `"state"` event whose object payload carries `status = "failed"`
terminates the fold immediately with the failure error citing that status; one
carrying `status = "completed"` with `download` set attempts exactly one fetch
(the count rises from `n` to `n + 1`), delivering the fetched payload on
success and the state payload on fetch failure; with `download` unset no fetch
happens and the state payload is returned. -/
theorem scrape_state_terminal (download : Bool)
    (fetch : Nat → Option (List (String × JValue))) (n : Nat)
    (st : ScrapeState) (rest : List EventStreamMessage)
    (m : List (String × JValue)) :
    (List.lookup "status" m = some (.str "failed") →
      scrapeLoop download fetch (⟨"state", .obj m⟩ :: rest) st n
        = (.error (.crawlFailed "failed"), n)) ∧
    (List.lookup "status" m = some (.str "completed") →
      (∀ dd, fetch n = some dd →
        scrapeLoop true fetch (⟨"state", .obj m⟩ :: rest) st n
          = (.ok dd, n + 1)) ∧
      (fetch n = none →
        scrapeLoop true fetch (⟨"state", .obj m⟩ :: rest) st n
          = (.ok m, n + 1)) ∧
      scrapeLoop false fetch (⟨"state", .obj m⟩ :: rest) st n = (.ok m, n)) := by
  constructor
  · intro h
    simp [scrapeLoop, scrapeStep, JValue.asObj, h]
  · intro h
    refine ⟨?_, ?_, ?_⟩
    · intro dd hdd
      simp [scrapeLoop, scrapeStep, JValue.asObj, h, hdd]
    · intro hf
      simp [scrapeLoop, scrapeStep, JValue.asObj, h, hf]
    · simp [scrapeLoop, scrapeStep, JValue.asObj, h]

/-- Witness for C2: the four decision branches at concrete state payloads and
fetch oracles. -/
theorem scrape_state_terminal_witness :
    (List.lookup "status" [("status", JValue.str "failed")]
        = some (.str "failed") ∧
      scrapeLoop false (fun _ => none)
          [⟨"state", .obj [("status", JValue.str "failed")]⟩]
          initialScrapeState 0
        = (.error (.crawlFailed "failed"), 0)) ∧
    (List.lookup "status" [("status", JValue.str "completed")]
        = some (.str "completed") ∧
      scrapeLoop true (fun _ => some [("content", JValue.str "d")])
          [⟨"state", .obj [("status", JValue.str "completed")]⟩]
          initialScrapeState 0
        = (.ok [("content", JValue.str "d")], 1) ∧
      scrapeLoop true (fun _ => none)
          [⟨"state", .obj [("status", JValue.str "completed")]⟩]
          initialScrapeState 0
        = (.ok [("status", JValue.str "completed")], 1) ∧
      scrapeLoop false (fun _ => none)
          [⟨"state", .obj [("status", JValue.str "completed")]⟩]
          initialScrapeState 0
        = (.ok [("status", JValue.str "completed")], 0)) :=
  ⟨⟨rfl,
    (scrape_state_terminal false (fun _ => none) 0 initialScrapeState [] _).1
      rfl⟩,
   rfl,
   ((scrape_state_terminal true (fun _ => some [("content", JValue.str "d")]) 0
       initialScrapeState [] [("status", JValue.str "completed")]).2 rfl).1 _
     rfl,
   ((scrape_state_terminal true (fun _ => none) 0 initialScrapeState []
       [("status", JValue.str "completed")]).2 rfl).2.1 rfl,
   ((scrape_state_terminal false (fun _ => none) 0 initialScrapeState []
       [("status", JValue.str "completed")]).2 rfl).2.2⟩

/-- C3: a `"result"` event with an object payload terminates the fold
immediately with that payload and no fetch (the count stays `n`); on the
sample run `state(running)`, `progress(50)`, `result({content:"x"})` with
`download = false`, neither the monitor nor the fold issues any fetch and the
outcome is `{content: "x"}`. -/
theorem scrape_result_immediate_delivery (download : Bool)
    (fetch : Nat → Option (List (String × JValue))) (n : Nat)
    (st : ScrapeState) (rest : List EventStreamMessage)
    (m : List (String × JValue)) :
    scrapeLoop download fetch (⟨"result", JValue.obj m⟩ :: rest) st n
      = (.ok m, n) ∧
    (∀ fetchM fetchS : Nat → Option (List (String × JValue)),
      monitorLoop false fetchM syncScrapeSampleEvents 0
        = (syncScrapeSampleEvents, 0) ∧
      scrapeLoop false fetchS syncScrapeSampleEvents initialScrapeState 0
        = (.ok [("content", JValue.str "x")], 0)) := by
  refine ⟨?_, fun fetchM fetchS => ⟨?_, ?_⟩⟩
  · simp [scrapeLoop, scrapeStep, JValue.asObj]
  · rfl
  · rfl

/-- C4 counterexample: a body whose top-level JSON is `null` is neither an
object nor an array, yet `DownloadCrawlRequest` does not return an error — the
first unmarshal accepts the `null` and the nil map is returned as success. -/
theorem download_null_body_not_error :
    (∀ m, JValue.null ≠ JValue.obj m) ∧ (∀ a, JValue.null ≠ JValue.arr a) ∧
    DownloadCrawlRequest (some JValue.null) = some [] :=
  ⟨fun _ h => JValue.noConfusion h, fun _ h => JValue.noConfusion h, rfl⟩

/-- C4 (amended): a top-level object body is returned unchanged, a top-level
array is wrapped as an object under the single key `"results"`, and malformed
JSON or a scalar other than `null` (boolean, number, string) is a fetch
error; a top-level `null` is accepted by the object unmarshal and yields the
empty (nil) map as a success. -/
theorem download_body_normalization :
    (∀ m, DownloadCrawlRequest (some (JValue.obj m)) = some m) ∧
    (∀ a, DownloadCrawlRequest (some (JValue.arr a))
        = some [("results", JValue.arr a)]) ∧
    DownloadCrawlRequest none = none ∧
    (∀ b, DownloadCrawlRequest (some (JValue.bool b)) = none) ∧
    (∀ q, DownloadCrawlRequest (some (JValue.num q)) = none) ∧
    (∀ s, DownloadCrawlRequest (some (JValue.str s)) = none) ∧
    DownloadCrawlRequest (some JValue.null) = some [] :=
  ⟨fun _ => rfl, fun _ => rfl, rfl, fun _ => rfl, fun _ => rfl, fun _ => rfl,
   rfl⟩

/-- In a URL list whose elements before position `pre.length` are all
non-empty, the validation loop started at index `k` fails at the first empty
element, reporting field `url[k + pre.length]`. -/
theorem validateURLList_first_empty (pre : List String) :
    ∀ (post : List String) (k : Nat), (∀ u ∈ pre, u ≠ "") →
      validateURLList (pre ++ "" :: post) k
        = some ⟨"url[" ++ toString (k + pre.length) ++ "]",
                "URL cannot be empty"⟩ := by
  induction pre with
  | nil => intro post k _; simp [validateURLList]
  | cons u rest ih =>
    intro post k h
    have hu : u ≠ "" := h u (List.mem_cons_self u rest)
    have h' : ∀ x ∈ rest, x ≠ "" := fun x hx => h x (List.mem_cons_of_mem u hx)
    have hidx : k + 1 + rest.length = k + (rest.length + 1) := by omega
    simp [validateURLList, hu, ih post (k + 1) h', hidx]

/-- The validation loop accepts a list of non-empty URLs. -/
theorem validateURLList_all_nonempty (l : List String) :
    ∀ k, (∀ u ∈ l, u ≠ "") → validateURLList l k = none := by
  induction l with
  | nil => intro k _; rfl
  | cons u rest ih =>
    intro k h
    have hu : u ≠ "" := h u (List.mem_cons_self u rest)
    exact by
      simp [validateURLList, hu,
        ih (k + 1) (fun x hx => h x (List.mem_cons_of_mem u hx))]

/-- C5: a nil URL, an empty string, an empty list, a list whose first empty
entry sits at position `pre.length`, and any other dynamic type each fail
validation with the corresponding field-tagged `ValidationError`, and
`CreateCrawlRequest` returns that error before issuing the network request;
non-empty strings and lists of non-empty strings pass validation, after which
the create request is issued. -/
theorem create_crawl_request_validation (s : String)
    (pre post l : List String) :
    createCrawlRequestValidate .null = some ⟨"url", "URL is required"⟩ ∧
    createCrawlRequestValidate (.str "")
      = some ⟨"url", "URL cannot be empty"⟩ ∧
    createCrawlRequestValidate (.strList [])
      = some ⟨"url", "URL list cannot be empty"⟩ ∧
    createCrawlRequestValidate .other
      = some ⟨"url", "URL must be a string or array of strings"⟩ ∧
    ((∀ u ∈ pre, u ≠ "") →
      createCrawlRequestValidate (.strList (pre ++ "" :: post))
        = some ⟨"url[" ++ toString pre.length ++ "]", "URL cannot be empty"⟩) ∧
    (s ≠ "" → createCrawlRequestValidate (.str s) = none) ∧
    ((∀ u ∈ l, u ≠ "") → l ≠ [] →
      createCrawlRequestValidate (.strList l) = none) ∧
    (∀ u, createCrawlRequestValidate u = none → CreateCrawlRequest u = .ok ()) ∧
    (∀ u e, createCrawlRequestValidate u = some e →
      CreateCrawlRequest u = .error e) := by
  refine ⟨rfl, rfl, rfl, rfl, ?_, ?_, ?_, ?_, ?_⟩
  · intro h
    have hv := validateURLList_first_empty pre post 0 h
    have hlen : (pre ++ "" :: post).length ≠ 0 := by simp
    simp [createCrawlRequestValidate, hlen, hv]
  · intro h
    simp [createCrawlRequestValidate, h]
  · intro h hne
    have hlen : l.length ≠ 0 := by
      simpa [List.length_eq_zero] using hne
    simp [createCrawlRequestValidate, hlen,
      validateURLList_all_nonempty l 0 h]
  · intro u h
    simp [CreateCrawlRequest, h]
  · intro u e h
    simp [CreateCrawlRequest, h]

/-- Witness for C5: the concrete bad inputs of the claim, the offending index
`url[1]` for a two-element list, and a valid string and list proceeding to the
create request. -/
theorem create_crawl_request_validation_witness :
    ((∀ u ∈ ["https://one.example"], u ≠ "") ∧
      createCrawlRequestValidate (.strList ["https://one.example", ""])
        = some ⟨"url[1]", "URL cannot be empty"⟩) ∧
    (("https://watercrawl.dev" : String) ≠ "" ∧
      createCrawlRequestValidate (.str "https://watercrawl.dev") = none) ∧
    ((∀ u ∈ ["https://a.example", "https://b.example"], u ≠ "") ∧
      (["https://a.example", "https://b.example"] : List String) ≠ [] ∧
      createCrawlRequestValidate
          (.strList ["https://a.example", "https://b.example"]) = none) ∧
    (createCrawlRequestValidate (.str "https://watercrawl.dev") = none ∧
      CreateCrawlRequest (.str "https://watercrawl.dev") = .ok ()) ∧
    (createCrawlRequestValidate .null = some ⟨"url", "URL is required"⟩ ∧
      CreateCrawlRequest .null = .error ⟨"url", "URL is required"⟩) :=
  ⟨⟨by decide,
    (create_crawl_request_validation "" ["https://one.example"] [] []).2.2.2.2.1
      (by decide)⟩,
   ⟨by decide,
    (create_crawl_request_validation "https://watercrawl.dev" [] [] []).2.2.2.2.2.1
      (by decide)⟩,
   ⟨by decide, by decide,
    (create_crawl_request_validation ""
        [] [] ["https://a.example", "https://b.example"]).2.2.2.2.2.2.1
      (by decide) (by decide)⟩,
   ⟨rfl,
    (create_crawl_request_validation "" [] [] []).2.2.2.2.2.2.2.1
      (.str "https://watercrawl.dev") rfl⟩,
   ⟨rfl,
    (create_crawl_request_validation "" [] [] []).2.2.2.2.2.2.2.2
      .null ⟨"url", "URL is required"⟩ rfl⟩⟩

/-- C6: a line on which the per-line decoder yields no event — a blank line, a
line without the `data:` marker, or a `data:` line whose remainder fails to
unmarshal — is skipped without disturbing the events decoded from the lines on
either side of it, and an input that ends (EOF) yields exactly the events of
its lines, the empty input yielding none without error. -/
theorem decoder_skips_malformed (parse : String → Option EventStreamMessage)
    (l1 l2 : List String) (bad : String) :
    (processSSELine parse bad = none →
      decodeLines parse (l1 ++ bad :: l2)
        = decodeLines parse l1 ++ decodeLines parse l2) ∧
    (∀ raw, trimSpace raw = "" → processSSELine parse raw = none) ∧
    (∀ raw, List.isPrefixOf "data:".data (trimSpace raw).data = false →
      processSSELine parse raw = none) ∧
    (∀ s, List.isPrefixOf "data:".data (trimSpace s).data = true →
      parse (trimSpace ⟨(trimSpace s).data.drop 5⟩) = none →
      processSSELine parse s = none) ∧
    decodeLines parse [] = [] := by
  refine ⟨?_, ?_, ?_, ?_, rfl⟩
  · intro h
    simp [decodeLines, List.filterMap_append, List.filterMap_cons, h]
  · intro raw h
    simp [processSSELine, h]
  · intro raw h
    simp [processSSELine, h]
  · intro s hd hp
    simp [processSSELine, hd, hp]

/-- Witness for C6: with an unmarshal oracle accepting only the document
`ev`, a malformed `data:` line between two well-formed ones is skipped and
both neighbours are delivered; blank and non-marker lines produce nothing. -/
theorem decoder_skips_malformed_witness :
    processSSELine sampleParse "data: nope" = none ∧
    decodeLines sampleParse (["data: ev"] ++ "data: nope" :: ["data:ev"])
      = decodeLines sampleParse ["data: ev"]
          ++ decodeLines sampleParse ["data:ev"] ∧
    trimSpace "   " = "" ∧
    processSSELine sampleParse "   " = none ∧
    List.isPrefixOf "data:".data (trimSpace "event: ping").data = false ∧
    processSSELine sampleParse "event: ping" = none ∧
    List.isPrefixOf "data:".data (trimSpace "data: nope").data = true ∧
    sampleParse (trimSpace ⟨(trimSpace "data: nope").data.drop 5⟩) = none ∧
    decodeLines sampleParse [] = [] :=
  ⟨rfl,
   (decoder_skips_malformed sampleParse ["data: ev"] ["data:ev"]
       "data: nope").1 rfl,
   by decide,
   (decoder_skips_malformed sampleParse [] [] "").2.1 "   " (by decide),
   by decide,
   (decoder_skips_malformed sampleParse [] [] "").2.2.1 "event: ping"
     (by decide),
   by decide, rfl,
   (decoder_skips_malformed sampleParse [] [] "").2.2.2.2⟩

/-- C7: with augmentation on, a `"result"` event with an object payload
triggers exactly one fetch under the 30-second download timeout: on success
the payload is replaced wholesale by the fetched object, on failure the event
passes through untouched, and in both cases the remaining events are still
processed (with the fetch count advanced by one); an event of another kind, or
one whose payload is not an object, is emitted unchanged with no fetch, as is
every event when augmentation is off. -/
theorem monitor_result_augmentation
    (fetch : Nat → Option (List (String × JValue))) (n : Nat)
    (rest : List EventStreamMessage) (e : EventStreamMessage) :
    downloadTimeoutSeconds = 30 ∧
    (∀ m dd, e.type = "result" → e.data = .obj m → fetch n = some dd →
      monitorLoop true fetch (e :: rest) n
        = ({ e with data := .obj dd } :: (monitorLoop true fetch rest (n + 1)).1,
           (monitorLoop true fetch rest (n + 1)).2)) ∧
    (∀ m, e.type = "result" → e.data = .obj m → fetch n = none →
      monitorLoop true fetch (e :: rest) n
        = (e :: (monitorLoop true fetch rest (n + 1)).1,
           (monitorLoop true fetch rest (n + 1)).2)) ∧
    (e.type ≠ "result" →
      monitorLoop true fetch (e :: rest) n
        = (e :: (monitorLoop true fetch rest n).1,
           (monitorLoop true fetch rest n).2)) ∧
    (e.data.asObj = none →
      monitorLoop true fetch (e :: rest) n
        = (e :: (monitorLoop true fetch rest n).1,
           (monitorLoop true fetch rest n).2)) ∧
    monitorLoop false fetch (e :: rest) n
      = (e :: (monitorLoop false fetch rest n).1,
         (monitorLoop false fetch rest n).2) := by
  refine ⟨rfl, ?_, ?_, ?_, ?_, ?_⟩
  · intro m dd ht hdta hf
    simp [monitorLoop, ht, hdta, hf, JValue.asObj]
  · intro m ht hdta hf
    simp [monitorLoop, ht, hdta, hf, JValue.asObj]
  · intro ht
    simp [monitorLoop, ht]
  · intro hobj
    by_cases ht : e.type = "result"
    · simp [monitorLoop, ht, hobj]
    · simp [monitorLoop, ht]
  · simp [monitorLoop]

/-- Witness for C7: a concrete `"result"` event with object payload is
augmented under a succeeding fetch and passed through under a failing one; a
`"progress"` event and a scalar-payload `"result"` event pass through with no
fetch. -/
theorem monitor_result_augmentation_witness :
    monitorLoop true (fun _ => some [("content", JValue.str "full")])
        [⟨"result", .obj [("partial", JValue.bool true)]⟩] 0
      = ([⟨"result", .obj [("content", JValue.str "full")]⟩], 1) ∧
    monitorLoop true (fun _ => none)
        [⟨"result", .obj [("partial", JValue.bool true)]⟩] 0
      = ([⟨"result", .obj [("partial", JValue.bool true)]⟩], 1) ∧
    monitorLoop true (fun _ => some [("content", JValue.str "full")])
        [⟨"progress", .obj [("progress", JValue.num 50)]⟩] 0
      = ([⟨"progress", .obj [("progress", JValue.num 50)]⟩], 0) ∧
    monitorLoop true (fun _ => some [("content", JValue.str "full")])
        [⟨"result", JValue.str "oops"⟩] 0
      = ([⟨"result", JValue.str "oops"⟩], 0) ∧
    monitorLoop false (fun _ => some [("content", JValue.str "full")])
        [⟨"result", .obj [("partial", JValue.bool true)]⟩] 0
      = ([⟨"result", .obj [("partial", JValue.bool true)]⟩], 0) :=
  ⟨(monitor_result_augmentation (fun _ => some [("content", JValue.str "full")])
       0 [] ⟨"result", .obj [("partial", JValue.bool true)]⟩).2.1
     [("partial", JValue.bool true)] [("content", JValue.str "full")]
     rfl rfl rfl,
   (monitor_result_augmentation (fun _ => none) 0 []
       ⟨"result", .obj [("partial", JValue.bool true)]⟩).2.2.1
     [("partial", JValue.bool true)] rfl rfl rfl,
   (monitor_result_augmentation (fun _ => some [("content", JValue.str "full")])
       0 [] ⟨"progress", .obj [("progress", JValue.num 50)]⟩).2.2.2.1
     (by decide),
   (monitor_result_augmentation (fun _ => some [("content", JValue.str "full")])
       0 [] ⟨"result", JValue.str "oops"⟩).2.2.2.2.1 rfl,
   (monitor_result_augmentation (fun _ => some [("content", JValue.str "full")])
       0 [] ⟨"result", .obj [("partial", JValue.bool true)]⟩).2.2.2.2.2⟩

/-- C8: a `"completed"` event with `download` set attempts exactly one fetch
(count `n` to `n + 1`): only a successful fetch with non-empty content ends
the fold with that content; an empty successful fetch or a failed fetch lets
the fold keep consuming the remaining events, as does `download` unset, in
which case no fetch is attempted. -/
theorem scrape_completed_fetch_gate
    (fetch : Nat → Option (List (String × JValue))) (n : Nat)
    (st : ScrapeState) (rest : List EventStreamMessage) (d : JValue) :
    (∀ dd, fetch n = some dd → 0 < dd.length →
      scrapeLoop true fetch (⟨"completed", d⟩ :: rest) st n
        = (.ok dd, n + 1)) ∧
    (∀ dd, fetch n = some dd → dd.length = 0 →
      scrapeLoop true fetch (⟨"completed", d⟩ :: rest) st n
        = scrapeLoop true fetch rest (countEvent st) (n + 1)) ∧
    (fetch n = none →
      scrapeLoop true fetch (⟨"completed", d⟩ :: rest) st n
        = scrapeLoop true fetch rest (countEvent st) (n + 1)) ∧
    scrapeLoop false fetch (⟨"completed", d⟩ :: rest) st n
      = scrapeLoop false fetch rest (countEvent st) n := by
  refine ⟨?_, ?_, ?_, ?_⟩
  · intro dd hf hlen
    simp [scrapeLoop, scrapeStep, countEvent, hf, hlen]
  · intro dd hf hlen
    simp [scrapeLoop, scrapeStep, countEvent, hf, hlen]
  · intro hf
    simp [scrapeLoop, scrapeStep, countEvent, hf]
  · simp [scrapeLoop, scrapeStep, countEvent]

/-- Witness for C8: a non-empty fetched map delivers it; an empty map, a
failed fetch, and `download` unset all fall through to the end-of-stream
rules (here the "no valid result" error, the event having been counted). -/
theorem scrape_completed_fetch_gate_witness :
    scrapeLoop true (fun _ => some [("content", JValue.str "final")])
        [⟨"completed", JValue.null⟩] initialScrapeState 0
      = (.ok [("content", JValue.str "final")], 1) ∧
    scrapeLoop true (fun _ => some [])
        [⟨"completed", JValue.null⟩] initialScrapeState 0
      = scrapeLoop true (fun _ => some []) [] (countEvent initialScrapeState) 1 ∧
    scrapeLoop true (fun _ => none)
        [⟨"completed", JValue.null⟩] initialScrapeState 0
      = scrapeLoop true (fun _ => none) [] (countEvent initialScrapeState) 1 ∧
    scrapeLoop false (fun _ => none)
        [⟨"completed", JValue.null⟩] initialScrapeState 0
      = scrapeLoop false (fun _ => none) [] (countEvent initialScrapeState) 0 ∧
    scrapeLoop true (fun _ => none)
        [⟨"completed", JValue.null⟩] initialScrapeState 0
      = (.error (.noValidResult 1 0), 1) :=
  ⟨(scrape_completed_fetch_gate (fun _ => some [("content", JValue.str "final")])
       0 initialScrapeState [] JValue.null).1
     [("content", JValue.str "final")] rfl (by decide),
   (scrape_completed_fetch_gate (fun _ => some []) 0 initialScrapeState []
       JValue.null).2.1 [] rfl rfl,
   (scrape_completed_fetch_gate (fun _ => none) 0 initialScrapeState []
       JValue.null).2.2.1 rfl,
   (scrape_completed_fetch_gate (fun _ => none) 0 initialScrapeState []
       JValue.null).2.2.2,
   rfl⟩

/-- C10: a `"result"` event whose payload is not an object neither terminates
the fold nor raises an error: the event is counted and consumption continues
with the remaining events under the unchanged fetch count. -/
theorem scrape_result_nonobject_ignored (download : Bool)
    (fetch : Nat → Option (List (String × JValue))) (n : Nat)
    (st : ScrapeState) (rest : List EventStreamMessage) (d : JValue) :
    d.asObj = none →
    scrapeLoop download fetch (⟨"result", d⟩ :: rest) st n
      = scrapeLoop download fetch rest (countEvent st) n := by
  intro h
  simp [scrapeLoop, scrapeStep, countEvent, h]

/-- Witness for C10: a `"result"` event carrying a bare string is skipped and
the zero-event-free fallback produces the "no valid result" error with the
event counted. -/
theorem scrape_result_nonobject_ignored_witness :
    (JValue.str "oops").asObj = none ∧
    scrapeLoop false (fun _ => none) [⟨"result", JValue.str "oops"⟩]
        initialScrapeState 0
      = scrapeLoop false (fun _ => none) [] (countEvent initialScrapeState) 0 ∧
    scrapeLoop false (fun _ => none) [⟨"result", JValue.str "oops"⟩]
        initialScrapeState 0
      = (.error (.noValidResult 1 0), 0) :=
  ⟨rfl,
   scrape_result_nonobject_ignored false (fun _ => none) 0 initialScrapeState
     [] (JValue.str "oops") rfl,
   rfl⟩
